import Mathlib

/-!
Shallow embedding of the Joulescope UI JS220 device-session core
(`joulescope_ui/devices/jsdrv/js220.py`) and of the waveform time-map
component, together with proofs of the specification claims about them.

Conventions:
* Driver register publishes (`self._driver_publish(topic, value)`) and UI
  pubsub publishes (`self._ui_publish(topic, value)`) are modelled as lists of
  `(topic, value)` pairs produced in program order.
* Python integers are `Int`/`Nat`; Python floor division `//` is `Int.fdiv`
  (`Nat.div` on naturals, where both agree).
* Raised exceptions are modelled with `Except`.
-/

set_option maxRecDepth 8000

/-! ## Python string primitives

The handler dispatches on topic strings with `str.endswith`, `str.startswith`,
`str.split` and slicing.  These are embedded as computable functions on the
character list underlying `String`, so that concrete dispatches reduce inside
the kernel. -/

/-- Python `s.endswith(p)`. -/
def strEndsWith (s p : String) : Bool := p.data.isSuffixOf s.data

/-- Python `s.startswith(p)`. -/
def strStartsWith (s p : String) : Bool := p.data.isPrefixOf s.data

/-- Python `s[n:]` (drop the first `n` characters). -/
def strDrop (s : String) (n : Nat) : String := ⟨s.data.drop n⟩

/-- Split a character list at every occurrence of `c` (Python `str.split`). -/
def splitCh (c : Char) : List Char → List (List Char)
  | [] => [[]]
  | x :: xs =>
    let r := splitCh c xs
    if x = c then [] :: r
    else
      match r with
      | [] => [[x]]
      | y :: ys => (x :: y) :: ys

/-- Python `s.split(c)` for a single-character separator. -/
def strSplit (s : String) (c : Char) : List String := (splitCh c s.data).map fun l => ⟨l⟩

namespace Js220

/-- Values carried on settings topics and driver/UI publish topics. -/
inductive DVal where
  | i (n : Int)
  | b (x : Bool)
  | s (st : String)
  | pair (a b : Int)
  | null
  | obj
  deriving DecidableEq, Repr

/-- Python `bool(value)` truthiness for the values the handler converts. -/
def DVal.toBool : DVal → Bool
  | .i n => n != 0
  | .b x => x
  | .s st => !st.isEmpty
  | .pair _ _ => true
  | .null => false
  | .obj => true

/-- Python `int(value)` for the values the handler converts.  The settings
schema only delivers integers (and booleans) to the branches that call it;
Python would raise on the remaining constructors, which no claim exercises. -/
def DVal.toInt : DVal → Int
  | .i n => n
  | .b x => if x then 1 else 0
  | _ => 0

/-! ## Current-range policy (`Js220._current_range_update`)

The method reads `self._target_power_app` (application-level target power),
`self.target_power` (the device setting) and `self.current_range`, and issues
driver publishes.  We embed it as a function from those three inputs to the
list of driver publishes it performs, in order. -/

/-- Device-side settings state read by `_current_range_update`. -/
structure RangeSettings where
  target_power_app : Bool
  target_power : Bool
  current_range : Int
  deriving DecidableEq, Repr

/-- Embedding of `Js220._current_range_update` (js220.py lines 606-617):
the list of driver publishes it performs, in order. -/
def current_range_update (s : RangeSettings) : List (String × DVal) :=
  if s.target_power_app && s.target_power then
    if s.current_range = -1 then
      [("s/i/range/mode", .s "auto")]
    else
      [("s/i/range/select", .i s.current_range), ("s/i/range/mode", .s "manual")]
  else
    [("s/i/range/mode", .s "off")]

/-! ## Statistics normalization (`Js220._on_stats`, `on_action_accum_clear`)

A statistics sample `value` is a nested dict; the fields the code touches are
`value['time']['accum_samples']['value']` (a pair whose element 0 is the
accumulation-start sample index and whose element -1 is the current sample
index), `value['accumulators']['charge']['value']` and
`value['accumulators']['energy']['value']`.  The numeric accumulator fields
are embedded as `Int` (the code only forms differences, so the algebra is the
same for any additive group). -/

/-- The fields of one raw statistics sample that `_on_stats` reads or writes.
`accum_first` is `value['time']['accum_samples']['value'][0]` and
`accum_last` is `value['time']['accum_samples']['value'][-1]`. -/
structure StatsSample where
  accum_first : Int
  accum_last : Int
  charge : Int
  energy : Int
  deriving DecidableEq, Repr

/-- The stored baseline `self._statistics_offsets`:
`[accum_sample_start, charge, energy]`. -/
structure Offsets where
  accum_sample_start : Int
  charge : Int
  energy : Int
  deriving DecidableEq, Repr

/-- A republished statistics sample: the mutated `value` together with the
`source` tag and the UI topic on which `_ui_publish` is called. -/
structure StatsOut where
  topic : String
  source_unique_id : String
  accum_first : Int
  accum_last : Int
  charge : Int
  energy : Int
  deriving DecidableEq, Repr

/-- Embedding of `Js220._on_stats` (js220.py lines 728-741): given the current
`self._statistics_offsets` and one incoming sample, returns the updated
offsets and the published output. -/
def on_stats (unique_id : String) (offsets : Option Offsets) (v : StatsSample) :
    Option Offsets × StatsOut :=
  let off : Offsets :=
    match offsets with
    | none => { accum_sample_start := v.accum_last, charge := v.charge, energy := v.energy }
    | some o => o
  (some off,
   { topic := "events/statistics/!data"
     source_unique_id := unique_id
     accum_first := off.accum_sample_start
     accum_last := v.accum_last
     charge := v.charge - off.charge
     energy := v.energy - off.energy })

/-- Process a whole sequence of statistics samples, collecting the published
outputs in order. -/
def run_stats (unique_id : String) (offsets : Option Offsets) :
    List StatsSample → List StatsOut
  | [] => []
  | v :: vs =>
    let r := on_stats unique_id offsets v
    r.2 :: run_stats unique_id r.1 vs

/-- Embedding of `Js220.on_action_accum_clear` (js220.py lines 764-770):
returns `(new self._statistics_offsets, returned previous value)`. -/
def on_action_accum_clear (offsets : Option Offsets) (value : Option Offsets) :
    Option Offsets × Option Offsets :=
  match value with
  | none => (none, offsets)
  | some b => (some b, offsets)

/-- The output `_on_stats` produces for sample `w` once the baseline `off`
is in place. -/
def stats_out_with (unique_id : String) (off : Offsets) (w : StatsSample) : StatsOut :=
  { topic := "events/statistics/!data"
    source_unique_id := unique_id
    accum_first := off.accum_sample_start
    accum_last := w.accum_last
    charge := w.charge - off.charge
    energy := w.energy - off.energy }

/-- The baseline captured from the first sample `v`. -/
def baseline_of (v : StatsSample) : Offsets :=
  { accum_sample_start := v.accum_last, charge := v.charge, energy := v.energy }

theorem on_stats_some (unique_id : String) (off : Offsets) (v : StatsSample) :
    on_stats unique_id (some off) v = (some off, stats_out_with unique_id off v) := rfl

theorem on_stats_none (unique_id : String) (v : StatsSample) :
    on_stats unique_id none v =
      (some (baseline_of v), stats_out_with unique_id (baseline_of v) v) := rfl

theorem run_stats_some (unique_id : String) (off : Offsets) (vs : List StatsSample) :
    run_stats unique_id (some off) vs = vs.map (stats_out_with unique_id off) := by
  induction vs with
  | nil => rfl
  | cons v vs ih => simp [run_stats, on_stats_some, ih]

/-! ## The static signal table (`_SIGNALS`) and GPO bit map (`_GPO_BIT`) -/

/-- The per-signal static descriptor fields of `_SIGNALS` used by the
embedded operations: `name`, `dtype`, `units` and the
`topics = (ctrl, data)` pair. -/
structure SignalDesc where
  name : String
  dtype : String
  units : String
  ctrl_topic : String
  data_topic : String
  deriving DecidableEq, Repr

/-- Embedding of the `_SIGNALS` table (js220.py lines 300-393). -/
def SIGNALS : List (String × SignalDesc) :=
  [("i", ⟨"current", "f32", "A", "s/i/ctrl", "s/i/!data"⟩),
   ("v", ⟨"voltage", "f32", "V", "s/v/ctrl", "s/v/!data"⟩),
   ("p", ⟨"power", "f32", "W", "s/p/ctrl", "s/p/!data"⟩),
   ("r", ⟨"current range", "u8", "", "s/i/range/ctrl", "s/i/range/!data"⟩),
   ("0", ⟨"gpi[0]", "u1", "", "s/gpi/0/ctrl", "s/gpi/0/!data"⟩),
   ("1", ⟨"gpi[1]", "u1", "", "s/gpi/1/ctrl", "s/gpi/1/!data"⟩),
   ("2", ⟨"gpi[2]", "u1", "", "s/gpi/2/ctrl", "s/gpi/2/!data"⟩),
   ("3", ⟨"gpi[3]", "u1", "", "s/gpi/3/ctrl", "s/gpi/3/!data"⟩),
   ("T", ⟨"trigger_in", "u1", "", "s/gpi/7/ctrl", "s/gpi/7/!data"⟩)]

/-- Embedding of `_GPO_BIT` (js220.py lines 396-400). -/
def GPO_BIT : List (String × Int) := [("0", 1), ("1", 2), ("T", 128)]

/-! ## Worker settings handler (`Js220._run_cmd_settings`)

The handler dispatches on the (prefix-stripped) settings topic with an
`if`/`elif` chain and issues driver publishes, UI publishes, or a warning.
Python dict lookups that can fail (`_SIGNALS[signal_id]`, `_GPO_BIT[...]`)
are modelled with `Except`: `.error` is a raised `KeyError`. -/

/-- The observable effects of one `_run_cmd_settings` call. -/
structure CmdEffects where
  driver_pubs : List (String × DVal)
  ui_pubs : List (String × DVal)
  warned : Bool
  deriving DecidableEq, Repr

/-- Effects consisting only of driver publishes. -/
def drv (pubs : List (String × DVal)) : CmdEffects :=
  { driver_pubs := pubs, ui_pubs := [], warned := false }

/-- Structural topics explicitly ignored by the handler
(js220.py lines 596-600). -/
def STRUCTURAL_TOPICS : List String :=
  ["info", "state", "state_req", "out", "enable",
   "sources", "sources/1", "sources/1/info", "sources/1/name",
   "signals", "firmware_available", "firmware_channel"]

/-- Embedding of `Js220._run_cmd_settings` (js220.py lines 551-604).
`rs` holds the instance attributes read by `_current_range_update`.
The branches appear in the source's `if`/`elif` order. -/
def run_cmd_settings (rs : RangeSettings) (topic : String) (value : DVal) :
    Except String CmdEffects :=
  if strEndsWith topic "/enable" then
    match strSplit topic '/' with
    | _ :: signal_id :: _ =>
      match (SIGNALS.lookup signal_id) with
      | some sig => .ok (drv [(sig.ctrl_topic, .b value.toBool)])
      | none => .error "KeyError"
    | _ => .error "IndexError"
  else if strStartsWith topic "out/" then
    match (GPO_BIT.lookup (strDrop topic 4)) with
    | some v =>
      .ok (drv [(if value.toBool then "s/gpo/+/!set" else "s/gpo/+/!clr", .i v)])
    | none => .error "KeyError"
  else if topic = "signal_frequency" then
    .ok (drv [("h/fs", .i value.toInt)])
  else if topic = "statistics_frequency" then
    .ok (drv [("s/stats/scnt", .i ((1000000 : Int).fdiv value.toInt))])
  else if topic = "target_power" then
    .ok (drv (current_range_update rs))
  else if topic = "current_range" then
    .ok (drv (current_range_update rs))
  else if topic = "current_range_limits" then
    match value with
    | .null =>
      .ok (drv [("s/i/range/min", .i 0), ("s/i/range/max", .i 5)])
    | .pair a b =>
      let i_min := min 5 (max 0 a)
      let i_max := min 5 (max 0 b)
      let lo := if i_min > i_max then i_max else i_min
      let hi := if i_min > i_max then i_min else i_max
      .ok (drv [("s/i/range/min", .i lo), ("s/i/range/max", .i hi)])
    | _ => .error "TypeError"
  else if topic = "voltage_range" then
    if value = .i (-1) then
      .ok (drv [("s/v/range/mode", .s "auto")])
    else
      .ok (drv [("s/v/range/mode", .s "manual"), ("s/v/range/select", value)])
  else if topic = "trigger_dir" then
    .ok (drv [("c/trigger/dir", value)])
  else if topic = "gpio_voltage" then
    .ok (drv [("c/gpio/vref", value)])
  else if topic = "name" then
    .ok { driver_pubs := [], ui_pubs := [("settings/sources/1/name", value)], warned := false }
  else if topic ∈ STRUCTURAL_TOPICS then
    .ok (drv [])
  else if strStartsWith topic "signals/" then
    .ok (drv [])
  else
    .ok { driver_pubs := [], ui_pubs := [], warned := true }

instance : DecidableEq (Except String CmdEffects) := fun x y =>
  match x, y with
  | .ok a, .ok b => if h : a = b then isTrue (by rw [h]) else isFalse (by simp [h])
  | .error a, .error b => if h : a = b then isTrue (by rw [h]) else isFalse (by simp [h])
  | .ok _, .error _ => isFalse (by simp)
  | .error _, .ok _ => isFalse (by simp)

/-- C2: `_current_range_update` publishes mode "auto" to `s/i/range/mode`
when both power flags are true and `current_range = -1`; publishes the
configured range index to `s/i/range/select` together with mode "manual" when
both power flags are true and `current_range ≠ -1`; and publishes mode "off"
regardless of the configured range whenever the two power flags are not both
enabled. -/
theorem current_range_policy (s : RangeSettings) :
    (s.target_power_app = true → s.target_power = true → s.current_range = -1 →
      current_range_update s = [("s/i/range/mode", .s "auto")]) ∧
    (s.target_power_app = true → s.target_power = true → s.current_range ≠ -1 →
      current_range_update s =
        [("s/i/range/select", .i s.current_range), ("s/i/range/mode", .s "manual")]) ∧
    (¬(s.target_power_app = true ∧ s.target_power = true) →
      current_range_update s = [("s/i/range/mode", .s "off")]) := by
  refine ⟨fun h1 h2 h3 => ?_, fun h1 h2 h3 => ?_, fun h => ?_⟩
  · simp [current_range_update, h1, h2, h3]
  · simp [current_range_update, h1, h2, h3]
  · cases ha : s.target_power_app with
    | false => simp [current_range_update, ha]
    | true =>
      cases hb : s.target_power with
      | false => simp [current_range_update, ha, hb]
      | true => exact absurd ⟨ha, hb⟩ h

theorem current_range_policy_witness :
    current_range_update ⟨true, true, -1⟩ = [("s/i/range/mode", .s "auto")] ∧
    current_range_update ⟨true, true, 130⟩ =
      [("s/i/range/select", .i 130), ("s/i/range/mode", .s "manual")] ∧
    current_range_update ⟨false, true, -1⟩ = [("s/i/range/mode", .s "off")] :=
  ⟨(current_range_policy ⟨true, true, -1⟩).1 rfl rfl rfl,
   (current_range_policy ⟨true, true, 130⟩).2.1 rfl rfl (by decide),
   (current_range_policy ⟨false, true, -1⟩).2.2 (by simp)⟩

/-- C3: starting with a null stored baseline, the baseline is captured from
the first sample (its current sample index `accum_last`, charge and energy);
every republished sample has the baseline charge/energy subtracted — so the
first output's charge and energy are zero and every one equals raw minus
baseline — has its accumulation-start index (`accum_samples.value[0]`)
replaced with the captured baseline index, is tagged with the device unique
id, and goes out on `events/statistics/!data`. -/
theorem stats_normalization (uid : String) (v : StatsSample) (vs : List StatsSample) :
    run_stats uid none (v :: vs) =
      stats_out_with uid (baseline_of v) v :: vs.map (stats_out_with uid (baseline_of v)) ∧
    (stats_out_with uid (baseline_of v) v).charge = 0 ∧
    (stats_out_with uid (baseline_of v) v).energy = 0 ∧
    ∀ w : StatsSample,
      (stats_out_with uid (baseline_of v) w).charge = w.charge - v.charge ∧
      (stats_out_with uid (baseline_of v) w).energy = w.energy - v.energy ∧
      (stats_out_with uid (baseline_of v) w).accum_first = v.accum_last ∧
      (stats_out_with uid (baseline_of v) w).source_unique_id = uid ∧
      (stats_out_with uid (baseline_of v) w).topic = "events/statistics/!data" := by
  refine ⟨?_, by simp [stats_out_with, baseline_of], by simp [stats_out_with, baseline_of],
    fun w => ?_⟩
  · simp [run_stats, on_stats_none, run_stats_some]
  · exact ⟨rfl, rfl, rfl, rfl, rfl⟩

/-- C4: `on_action_accum_clear` with a null value returns the previous
baseline and resets the stored baseline to null; invoking it again with the
returned baseline restores it verbatim, so any statistics sample processed
after the restore is normalized exactly as it would have been had clear never
been called. -/
theorem accum_clear_restore_round_trip (uid : String) (off : Option Offsets)
    (v : StatsSample) :
    (on_action_accum_clear off none).1 = none ∧
    (on_action_accum_clear off none).2 = off ∧
    (on_action_accum_clear (on_action_accum_clear off none).1
        (on_action_accum_clear off none).2).1 = off ∧
    on_stats uid
      (on_action_accum_clear (on_action_accum_clear off none).1
        (on_action_accum_clear off none).2).1 v = on_stats uid off v := by
  cases off <;> simp [on_action_accum_clear]

/-- C5 counterexample: on topic `signal_frequency` with requested frequency 2,
`_run_cmd_settings` publishes the requested frequency itself (2) to `h/fs`,
not `1_000_000 // 2 = 500_000`: the claimed
`fixed_full_rate / requested_frequency` mapping does not hold for
`signal_frequency`. -/
theorem signal_frequency_not_decimation :
    run_cmd_settings ⟨true, true, -1⟩ "signal_frequency" (.i 2) =
      .ok (drv [("h/fs", .i 2)]) ∧
    (1000000 : Int).fdiv 2 = 500000 ∧
    (((2 : Int) == 500000) : Bool) = false := by
  refine ⟨by decide, by decide, by decide⟩

/-- C5 (amended): for every positive requested frequency `v`,
`statistics_frequency` maps to the decimation count `1_000_000 // v`
published to `s/stats/scnt` (so 2 Hz yields 500_000), while
`signal_frequency` publishes the requested frequency itself, unchanged, to
the `h/fs` sample-rate register. -/
theorem frequency_to_decimation (rs : RangeSettings) (v : Int) (h : 0 < v) :
    run_cmd_settings rs "statistics_frequency" (.i v) =
      .ok (drv [("s/stats/scnt", .i ((1000000 : Int).fdiv v))]) ∧
    run_cmd_settings rs "signal_frequency" (.i v) = .ok (drv [("h/fs", .i v)]) :=
  ⟨rfl, rfl⟩

theorem frequency_to_decimation_witness :
    (0 : Int) < 2 ∧ (1000000 : Int).fdiv 2 = 500000 ∧
    run_cmd_settings ⟨true, true, -1⟩ "statistics_frequency" (.i 2) =
      .ok (drv [("s/stats/scnt", .i 500000)]) ∧
    run_cmd_settings ⟨true, true, -1⟩ "signal_frequency" (.i 2) =
      .ok (drv [("h/fs", .i 2)]) := by
  have h := frequency_to_decimation ⟨true, true, -1⟩ 2 (by decide)
  refine ⟨by decide, by decide, ?_, h.2⟩
  rw [h.1]
  decide

/-- C8: on a malformed enable topic whose signal id is not in `_SIGNALS`
(here `signals/x/enable`), `_run_cmd_settings` raises a `KeyError` from the
`_SIGNALS[signal_id]` lookup instead of logging a warning and ignoring the
topic: the code's own `invalid enable` warning branch is unreachable because
the lookup precedes it and every declared signal has a control topic. -/
theorem enable_unknown_signal_raises :
    run_cmd_settings ⟨true, true, -1⟩ "signals/x/enable" (.b true) =
      .error "KeyError" ∧
    run_cmd_settings ⟨true, true, -1⟩ "signals/i/name" .obj = .ok (drv []) ∧
    run_cmd_settings ⟨true, true, -1⟩ "info" .obj = .ok (drv []) ∧
    run_cmd_settings ⟨true, true, -1⟩ "bogus_topic" .obj =
      .ok { driver_pubs := [], ui_pubs := [], warned := true } := by
  refine ⟨by decide, by decide, by decide, by decide⟩

/-! ## Signal forwarding (`Js220._signal_forward_factory`)

The factory captures the static descriptor `_SIGNALS[signal_id]` and returns
a callback that re-frames one raw driver telemetry event into one forwarded
application event.  Python `//` on the nonnegative sample counters is
`Nat.div`. -/

/-- The fields of one raw per-signal driver telemetry event. -/
structure SignalRaw where
  sample_id : Nat
  sample_rate : Nat
  decimate_factor : Nat
  utc : Int
  data : Nat
  deriving DecidableEq, Repr

/-- The forwarded event dict built by the factory's inner `fn`.
`source` holds the owning device descriptor (`self._info`), modelled by an
opaque identity token. -/
structure FwdEvent where
  source : String
  sample_id : Nat
  sample_freq : Nat
  utc : Int
  field : String
  data : Nat
  dtype : String
  units : String
  origin_sample_id : Nat
  orig_sample_freq : Nat
  orig_decimate_factor : Nat
  deriving DecidableEq, Repr

/-- Embedding of the callback produced by `Js220._signal_forward_factory`
(js220.py lines 488-508), for a captured descriptor `sig`. -/
def signal_forward_fn (info : String) (sig : SignalDesc) (v : SignalRaw) : FwdEvent :=
  { source := info
    sample_id := v.sample_id / v.decimate_factor
    sample_freq := v.sample_rate / v.decimate_factor
    utc := v.utc
    field := sig.name
    data := v.data
    dtype := sig.dtype
    units := sig.units
    origin_sample_id := v.sample_id
    orig_sample_freq := v.sample_rate
    orig_decimate_factor := v.decimate_factor }

/-- Embedding of `Js220._signal_forward_factory` itself: looks up
`_SIGNALS[signal_id]` and closes over the descriptor's `name`, `dtype` and
`units`. -/
def signal_forward_factory (info : String) (signal_id : String) :
    Option (SignalRaw → FwdEvent) :=
  (SIGNALS.lookup signal_id).map (signal_forward_fn info)

/-- C6: for every declared signal, the forwarded event divides the raw sample
index and sample rate by the event's decimation factor, preserves the
original index, rate and decimation factor in the dedicated origin fields,
and is tagged with the device descriptor and the signal's declared field
name, unit, and element encoding. -/
theorem signal_forward_correct (info signal_id : String) (sig : SignalDesc)
    (h : SIGNALS.lookup signal_id = some sig) (v : SignalRaw) :
    signal_forward_factory info signal_id = some (signal_forward_fn info sig) ∧
    (signal_forward_fn info sig v).sample_id = v.sample_id / v.decimate_factor ∧
    (signal_forward_fn info sig v).sample_freq = v.sample_rate / v.decimate_factor ∧
    (signal_forward_fn info sig v).origin_sample_id = v.sample_id ∧
    (signal_forward_fn info sig v).orig_sample_freq = v.sample_rate ∧
    (signal_forward_fn info sig v).orig_decimate_factor = v.decimate_factor ∧
    (signal_forward_fn info sig v).source = info ∧
    (signal_forward_fn info sig v).field = sig.name ∧
    (signal_forward_fn info sig v).units = sig.units ∧
    (signal_forward_fn info sig v).dtype = sig.dtype ∧
    (signal_forward_fn info sig v).utc = v.utc ∧
    (signal_forward_fn info sig v).data = v.data := by
  refine ⟨?_, rfl, rfl, rfl, rfl, rfl, rfl, rfl, rfl, rfl, rfl, rfl⟩
  simp [signal_forward_factory, h]

theorem signal_forward_correct_witness :
    SIGNALS.lookup "i" = some ⟨"current", "f32", "A", "s/i/ctrl", "s/i/!data"⟩ ∧
    signal_forward_factory "JS220-000001" "i" =
      some (signal_forward_fn "JS220-000001"
        ⟨"current", "f32", "A", "s/i/ctrl", "s/i/!data"⟩) ∧
    (signal_forward_fn "JS220-000001" ⟨"current", "f32", "A", "s/i/ctrl", "s/i/!data"⟩
      ⟨1000, 1000000, 2, 7, 42⟩).sample_id = 500 ∧
    (signal_forward_fn "JS220-000001" ⟨"current", "f32", "A", "s/i/ctrl", "s/i/!data"⟩
      ⟨1000, 1000000, 2, 7, 42⟩).sample_freq = 500000 ∧
    (signal_forward_fn "JS220-000001" ⟨"current", "f32", "A", "s/i/ctrl", "s/i/!data"⟩
      ⟨1000, 1000000, 2, 7, 42⟩).origin_sample_id = 1000 ∧
    (signal_forward_fn "JS220-000001" ⟨"current", "f32", "A", "s/i/ctrl", "s/i/!data"⟩
      ⟨1000, 1000000, 2, 7, 42⟩).field = "current" := by
  have h := signal_forward_correct "JS220-000001" "i"
    ⟨"current", "f32", "A", "s/i/ctrl", "s/i/!data"⟩ (by decide) ⟨1000, 1000000, 2, 7, 42⟩
  exact ⟨by decide, h.1, by decide, by decide, h.2.2.2.1, by decide⟩

/-! ## Firmware freshness check (`Js220._is_firmware_update_available`)

The `try` block fetches and parses the release image and extracts the
control-application and sensor-FPGA segment versions; any exception there is
caught and yields `None`.  The embedding takes the outcome of that block as
`fetch : Option (Nat × Nat)` (`none` is the exception path) together with the
versions reported live by the open hardware, all as u32 version numbers. -/

/-- Embedding of `_version_u32_to_str` (js220.py lines 24-28), the repo's
u32 `major.minor.patch` formatter; the handler uses the driver package's
equivalent `program.version_to_str` (an external collaborator) on the same
u32 values. -/
def version_u32_to_str (v : Nat) : String :=
  toString ((v >>> 24) % 256) ++ "." ++ toString ((v >>> 16) % 256) ++ "." ++
    toString (v % 65536)

/-- Embedding of `Js220._is_firmware_update_available`
(js220.py lines 629-649).  `fetch = some (ctrl_rel, fpga_rel)` is a
successfully fetched and parsed release image; `none` is any
fetch/parse failure. -/
def is_firmware_update_available (fetch : Option (Nat × Nat))
    (ctrl_app_now fpga_now : Nat) : Option (List (String × (String × String))) :=
  match fetch with
  | none => none
  | some (ctrl_rel, fpga_rel) =>
    if ctrl_rel ≤ ctrl_app_now ∧ fpga_rel ≤ fpga_now then none
    else
      some [("ctrl_app", (version_u32_to_str ctrl_app_now, version_u32_to_str ctrl_rel)),
            ("fpga", (version_u32_to_str fpga_now, version_u32_to_str fpga_rel))]

/-- C7: the firmware freshness check returns null exactly when the release
image fetch/parse failed (silent degradation, no exception) or both live
versions are numerically at least the release versions; otherwise it returns
the component map with the `[current, available]` string pair for both
components. -/
theorem firmware_update_check (fetch : Option (Nat × Nat)) (ctrl_app_now fpga_now : Nat) :
    (is_firmware_update_available fetch ctrl_app_now fpga_now = none ↔
      fetch = none ∨ ∃ ctrl_rel fpga_rel, fetch = some (ctrl_rel, fpga_rel) ∧
        ctrl_rel ≤ ctrl_app_now ∧ fpga_rel ≤ fpga_now) ∧
    (∀ ctrl_rel fpga_rel, fetch = some (ctrl_rel, fpga_rel) →
      ¬(ctrl_rel ≤ ctrl_app_now ∧ fpga_rel ≤ fpga_now) →
      is_firmware_update_available fetch ctrl_app_now fpga_now =
        some [("ctrl_app", (version_u32_to_str ctrl_app_now, version_u32_to_str ctrl_rel)),
              ("fpga", (version_u32_to_str fpga_now, version_u32_to_str fpga_rel))]) := by
  constructor
  · cases fetch with
    | none => simp [is_firmware_update_available]
    | some vr =>
      obtain ⟨cr, fr⟩ := vr
      by_cases h : cr ≤ ctrl_app_now ∧ fr ≤ fpga_now
      · simp only [is_firmware_update_available, if_pos h]
        simp only [true_iff]
        exact Or.inr ⟨cr, fr, rfl, h⟩
      · simp only [is_firmware_update_available, if_neg h]
        constructor
        · intro hc
          cases hc
        · rintro (hc | ⟨c2, f2, he, h2⟩)
          · cases hc
          · injection he with he2
            rw [Prod.mk.injEq] at he2
            obtain ⟨rfl, rfl⟩ := he2
            exact absurd h2 h
  · intro cr fr hf h
    subst hf
    simp [is_firmware_update_available, if_neg h]

theorem firmware_update_check_witness :
    is_firmware_update_available (some (0x01020003, 0x00010000)) 0x01010009 0x00020000 =
      some [("ctrl_app", ("1.1.9", "1.2.3")), ("fpga", ("0.2.0", "0.1.0"))] ∧
    is_firmware_update_available none 0 0 = none ∧
    is_firmware_update_available (some (5, 7)) 5 7 = none := by
  refine ⟨?_, ?_, ?_⟩
  · have h := (firmware_update_check (some (0x01020003, 0x00010000)) 0x01010009
      0x00020000).2 0x01020003 0x00010000 rfl (by decide)
    rw [h]
    decide
  · exact (firmware_update_check none 0 0).1.mpr (Or.inl rfl)
  · exact (firmware_update_check (some (5, 7)) 5 7).1.mpr
      (Or.inr ⟨5, 7, rfl, le_refl 5, le_refl 7⟩)

/-! ## Settings-bus subscriber (`Js220._on_settings`)

The subscriber runs on the UI pubsub thread.  When `self._thread` is `None`
it returns immediately; otherwise it enqueues a `('settings', (topic, value))`
command exactly when the delivered topic starts with
`get_topic_name(self) + '/settings/'`, with that whole device
settings-topic root stripped from the enqueued topic. -/

/-- Embedding of `Js220._on_settings` (js220.py lines 749-758): returns the
enqueued `(stripped topic, value)` command, if any, together with the
invalid-topic warning flag. -/
def on_settings (thread : Option Unit) (dev_topic topic : String) (value : DVal) :
    Option (String × DVal) × Bool :=
  match thread with
  | none => (none, false)
  | some _ =>
    let t := dev_topic ++ "/settings/"
    if strStartsWith topic t then
      (some (strDrop topic t.length, value), false)
    else
      (none, decide (topic ≠ dev_topic ++ "/settings"))

/-- C10: when no worker thread exists the settings callback enqueues nothing;
when a worker exists, a command is enqueued if and only if the delivered
topic starts with this device's settings-topic root, and then the enqueued
topic is the delivered topic with that root stripped. -/
theorem on_settings_gating (dev_topic topic : String) (value : DVal) :
    on_settings none dev_topic topic value = (none, false) ∧
    ((on_settings (some ()) dev_topic topic value).1.isSome = true ↔
      strStartsWith topic (dev_topic ++ "/settings/") = true) ∧
    (strStartsWith topic (dev_topic ++ "/settings/") = true →
      on_settings (some ()) dev_topic topic value =
        (some (strDrop topic (dev_topic ++ "/settings/").length, value), false)) := by
  refine ⟨rfl, ?_, fun h => ?_⟩
  · cases h : strStartsWith topic (dev_topic ++ "/settings/") <;>
      simp [on_settings, h]
  · simp [on_settings, h]

theorem on_settings_gating_witness :
    on_settings none "registry/JS220-001234"
      "registry/JS220-001234/settings/target_power" (.b true) = (none, false) ∧
    strStartsWith "registry/JS220-001234/settings/target_power"
      ("registry/JS220-001234" ++ "/settings/") = true ∧
    on_settings (some ()) "registry/JS220-001234"
      "registry/JS220-001234/settings/target_power" (.b true) =
      (some ("target_power", .b true), false) ∧
    (on_settings (some ()) "registry/JS220-001234" "registry/app/settings/units"
      (.s "SI")).1.isSome = false := by
  have hg := on_settings_gating "registry/JS220-001234"
    "registry/JS220-001234/settings/target_power" (.b true)
  refine ⟨hg.1, by decide, ?_, ?_⟩
  · rw [hg.2.2 (by decide)]
    decide
  · have hn := (on_settings_gating "registry/JS220-001234"
      "registry/app/settings/units" (.s "SI")).2.1
    cases hi : (on_settings (some ()) "registry/JS220-001234"
      "registry/app/settings/units" (.s "SI")).1.isSome
    · rfl
    · exact absurd (hn.mp hi) (by decide)

/-! ## Session lifecycle (`Js220._open_req` / `Js220._close_req`)

Both requests run on the single UI pubsub (control) thread, so a session
history is a sequence of events applied one after another.  The model state
tracks the `self._thread` reference, the number of currently live worker
threads (`live`), the total number of workers ever started (`started`), the
quit flag, the command queue, and the retained `settings/state` value along
with every `settings/state` publish.  `Thread.join()` is the point at which
the joined worker is guaranteed dead, so `close_req` ends with `live = 0`.
Besides the two control-thread requests, the events include the worker's own
state publishes and its natural exit (`_run` returning after an open failure
or a firmware update), which always publishes `closing` on its way out. -/

/-- The `settings/state` options (js220.py lines 57-68). -/
inductive SState where
  | closed
  | opening
  | open'
  | closing
  deriving DecidableEq, Repr

/-- Lifecycle model state. -/
structure LState where
  thread : Option Unit
  live : Nat
  started : Nat
  quit : Bool
  cmds : List String
  state : SState
  pubs : List (String × SState)
  deriving DecidableEq, Repr

/-- `self._ui_publish('settings/state', st)`: records the publish and updates
the retained value. -/
def ui_publish_state (s : LState) (st : SState) : LState :=
  { s with state := st, pubs := s.pubs ++ [("settings/state", st)] }

/-- Embedding of `Js220._close_req` (js220.py lines 535-545). -/
def close_req (s : LState) : LState :=
  match s.thread with
  | none => { s with thread := none }
  | some _ =>
    let s1 := ui_publish_state { s with thread := none } .closing
    let s2 := { s1 with cmds := s1.cmds ++ ["close"], quit := true }
    ui_publish_state { s2 with live := 0 } .closed

/-- The body of `Js220._open_req` guarded by `self._thread is None`
(js220.py lines 522-533): drain the queue, publish `opening`, clear the quit
flag, start the worker thread. -/
def open_start (s : LState) : LState :=
  let s1 := ui_publish_state { s with cmds := [] } .opening
  { s1 with
    quit := false
    thread := some ()
    live := s1.live + 1
    started := s1.started + 1 }

/-- Embedding of `Js220._open_req` (js220.py lines 518-533). -/
def open_req (s : LState) : LState :=
  let s1 := if s.thread.isSome = true ∧ s.state = .closing then close_req s else s
  if s1.thread = none then open_start s1 else s1

/-- A `settings/state` publish issued by the running worker itself
(`opening → open` on success, `closing` on a failed open). -/
def worker_set_state (s : LState) (st : SState) : LState :=
  if s.live = 1 then ui_publish_state s st else s

/-- The worker thread exiting on its own (open failure or firmware update):
`_open`/`_close` publish `closing` on the way out and the thread dies, while
`self._thread` keeps referencing the dead thread. -/
def worker_exit (s : LState) : LState :=
  if s.live = 1 then { ui_publish_state s .closing with live := 0 } else s

/-- Events of one session history. -/
inductive Ev where
  | openReq
  | closeReq
  | workerExit
  | workerState (st : SState)
  deriving DecidableEq, Repr

/-- One event applied to the model state. -/
def step (s : LState) : Ev → LState
  | .openReq => open_req s
  | .closeReq => close_req s
  | .workerExit => worker_exit s
  | .workerState st => worker_set_state s st

/-- A whole event history applied in order. -/
def runEvents (s : LState) : List Ev → LState
  | [] => s
  | e :: es => runEvents (step s e) es

/-- The state of a freshly constructed session (js220.py lines 450-453 and
the `state` default `closed`). -/
def initState : LState :=
  { thread := none, live := 0, started := 0, quit := false, cmds := [],
    state := .closed, pubs := [] }

/-- The lifecycle invariant: at most one live worker; a cleared thread
reference means no live worker and retained state `closed`. -/
def LifeInv (s : LState) : Prop :=
  s.live ≤ 1 ∧ (s.thread = none → s.live = 0 ∧ s.state = .closed)

theorem close_req_inv (s : LState) (h : LifeInv s) : LifeInv (close_req s) := by
  obtain ⟨h1, h2⟩ := h
  cases ht : s.thread with
  | none =>
    simp only [close_req, ht]
    exact ⟨h1, fun _ => (h2 ht)⟩
  | some u => simp [close_req, ht, LifeInv, ui_publish_state]

theorem open_start_inv (s : LState) (h : LifeInv s) (ht : s.thread = none) :
    LifeInv (open_start s) := by
  obtain ⟨h1, h2⟩ := h
  simp [open_start, LifeInv, ui_publish_state, (h2 ht).1]

theorem open_req_inv (s : LState) (h : LifeInv s) : LifeInv (open_req s) := by
  unfold open_req
  set s1 := if s.thread.isSome = true ∧ s.state = .closing then close_req s else s with hs1
  have h1 : LifeInv s1 := by
    by_cases hc : s.thread.isSome = true ∧ s.state = .closing
    · rw [hs1, if_pos hc]
      exact close_req_inv s h
    · rw [hs1, if_neg hc]
      exact h
  by_cases ht : s1.thread = none
  · rw [if_pos ht]
    exact open_start_inv s1 h1 ht
  · rw [if_neg ht]
    exact h1

theorem worker_exit_inv (s : LState) (h : LifeInv s) : LifeInv (worker_exit s) := by
  obtain ⟨h1, h2⟩ := h
  unfold worker_exit
  by_cases hl : s.live = 1
  · rw [if_pos hl]
    refine ⟨Nat.zero_le 1, fun ht => ?_⟩
    exact absurd ((h2 ht).1) (by rw [hl]; decide)
  · rw [if_neg hl]
    exact ⟨h1, h2⟩

theorem worker_set_state_inv (s : LState) (st : SState) (h : LifeInv s) :
    LifeInv (worker_set_state s st) := by
  obtain ⟨h1, h2⟩ := h
  unfold worker_set_state
  by_cases hl : s.live = 1
  · rw [if_pos hl]
    refine ⟨h1, fun ht => ?_⟩
    exact absurd ((h2 ht).1) (by rw [hl]; decide)
  · rw [if_neg hl]
    exact ⟨h1, h2⟩

theorem step_inv (s : LState) (e : Ev) (h : LifeInv s) : LifeInv (step s e) := by
  cases e with
  | openReq => exact open_req_inv s h
  | closeReq => exact close_req_inv s h
  | workerExit => exact worker_exit_inv s h
  | workerState st => exact worker_set_state_inv s st h

theorem runEvents_inv (evs : List Ev) (s : LState) (h : LifeInv s) :
    LifeInv (runEvents s evs) := by
  induction evs generalizing s with
  | nil => exact h
  | cons e es ih => exact ih (step s e) (step_inv s e h)

theorem lifeInv_init : LifeInv initState :=
  ⟨Nat.zero_le 1, fun _ => ⟨rfl, rfl⟩⟩

theorem close_req_noop (s : LState) (h : s.thread = none) : close_req s = s := by
  cases s with
  | mk th li sta q c stt p =>
    simp only at h
    subst h
    rfl

theorem close_req_thread (s : LState) : (close_req s).thread = none := by
  unfold close_req
  cases s.thread <;> rfl

theorem close_req_live (s : LState) (h : s.thread.isSome = true) :
    (close_req s).live = 0 := by
  unfold close_req
  cases hth : s.thread with
  | none => rw [hth] at h ; cases h
  | some u => rfl

theorem open_req_closing (s : LState) (h1 : s.thread.isSome = true)
    (h2 : s.state = SState.closing) : open_req s = open_start (close_req s) := by
  have hcond : s.thread.isSome = true ∧ s.state = SState.closing := ⟨h1, h2⟩
  unfold open_req
  rw [if_pos hcond, if_pos (close_req_thread s)]

theorem open_req_post (s : LState) :
    (open_req s).thread = some () ∧ (open_req s).state ≠ SState.closing := by
  unfold open_req
  by_cases hc : s.thread.isSome = true ∧ s.state = SState.closing
  · rw [if_pos hc, if_pos (close_req_thread s)]
    exact ⟨rfl, by simp [open_start, ui_publish_state]⟩
  · rw [if_neg hc]
    by_cases ht : s.thread = none
    · rw [if_pos ht]
      exact ⟨rfl, by simp [open_start, ui_publish_state]⟩
    · rw [if_neg ht]
      refine ⟨?_, fun hx => hc ⟨Option.isSome_iff_ne_none.mpr ht, hx⟩⟩
      cases hth : s.thread with
      | none => exact absurd hth ht
      | some u =>
        cases u
        rfl

theorem open_req_of_running (r : LState) (h1 : r.thread = some ())
    (h2 : r.state ≠ SState.closing) : open_req r = r := by
  unfold open_req
  have hc : ¬(r.thread.isSome = true ∧ r.state = SState.closing) := fun hx => h2 hx.2
  rw [if_neg hc, if_neg (by rw [h1] ; exact fun hx => Option.noConfusion hx)]

theorem open_req_idem (s : LState) : open_req (open_req s) = open_req s :=
  open_req_of_running (open_req s) (open_req_post s).1 (open_req_post s).2

/-- C1: over every control-thread event history from a fresh session, at most
one worker thread is live at any time; `_close_req` with no worker reference
is a no-op (no publish, and the retained state of every reachable such state
is `closed`); `_open_req` on a session whose worker reference is set while
the state is `closing` is exactly a full close (which joins the worker, so no
worker is live) followed by the normal open body; and a second `_open_req`
without an intervening close changes nothing and starts no additional worker
thread. -/
theorem open_close_lifecycle :
    (∀ evs : List Ev, (runEvents initState evs).live ≤ 1) ∧
    (∀ s : LState, s.thread = none → close_req s = s) ∧
    (∀ evs : List Ev, (runEvents initState evs).thread = none →
      (runEvents initState evs).state = SState.closed) ∧
    (∀ s : LState, s.thread.isSome = true → s.state = SState.closing →
      open_req s = open_start (close_req s) ∧ (close_req s).live = 0) ∧
    (∀ s : LState, open_req (open_req s) = open_req s ∧
      (open_req (open_req s)).started = (open_req s).started) := by
  refine ⟨fun evs => (runEvents_inv evs initState lifeInv_init).1,
    close_req_noop,
    fun evs h => ((runEvents_inv evs initState lifeInv_init).2 h).2,
    fun s h1 h2 => ⟨open_req_closing s h1 h2, close_req_live s h1⟩,
    fun s => ⟨open_req_idem s, by rw [open_req_idem s]⟩⟩

theorem open_close_lifecycle_witness :
    (runEvents initState [Ev.openReq, Ev.openReq, Ev.closeReq]).live ≤ 1 ∧
    close_req initState = initState ∧
    (runEvents initState [Ev.openReq, Ev.closeReq]).state = SState.closed ∧
    open_req (runEvents initState [Ev.openReq, Ev.workerExit]) =
      open_start (close_req (runEvents initState [Ev.openReq, Ev.workerExit])) ∧
    (close_req (runEvents initState [Ev.openReq, Ev.workerExit])).live = 0 ∧
    open_req (open_req initState) = open_req initState := by
  have h := open_close_lifecycle
  exact ⟨h.1 [Ev.openReq, Ev.openReq, Ev.closeReq],
    h.2.1 initState rfl,
    h.2.2.1 [Ev.openReq, Ev.closeReq] (by decide),
    (h.2.2.2.1 (runEvents initState [Ev.openReq, Ev.workerExit]) (by decide) (by decide)).1,
    (h.2.2.2.1 (runEvents initState [Ev.openReq, Ev.workerExit]) (by decide) (by decide)).2,
    (h.2.2.2.2 initState).1⟩

end Js220

namespace Waveform

/-- Modelled from the spec: the repository ships only the unit test
`widgets/waveform/test/test_time_map.py` for the waveform `TimeMap` class;
`time_map.py` itself is absent, so the component is embedded from §4.4 of the
specification: state `(trel_offset, anchor_pixel, anchor_time,
pixels_per_unit_time)` with `time64_to_pixel` / `pixel_to_time64` the inverse
affine maps through the anchor and scale.  The arithmetic is carried out over
exact rationals. -/
structure TimeMap where
  trel_offset : ℚ
  anchor_pixel : ℚ
  anchor_time : ℚ
  scale : ℚ
  deriving DecidableEq, Repr

/-- Modelled from the spec: `time64_to_pixel(t)` is the affine map through
the anchor and scale. -/
def time64_to_pixel (tm : TimeMap) (t : ℚ) : ℚ :=
  tm.anchor_pixel + (t - tm.anchor_time) * tm.scale

/-- Modelled from the spec: `pixel_to_time64(p)` inverts `time64_to_pixel`
through the anchor and scale. -/
def pixel_to_time64 (tm : TimeMap) (p : ℚ) : ℚ :=
  tm.anchor_time + (p - tm.anchor_pixel) / tm.scale

/-- C9: for every configuration with strictly positive scale and all times
`t` and pixels `p`, `pixel_to_time64 (time64_to_pixel t) = t` and
`time64_to_pixel (pixel_to_time64 p) = p` (over exact arithmetic the
round trips are exact, so the rounding caveat is satisfied trivially). -/
theorem time_map_round_trip (tm : TimeMap) (h : 0 < tm.scale) (t p : ℚ) :
    pixel_to_time64 tm (time64_to_pixel tm t) = t ∧
    time64_to_pixel tm (pixel_to_time64 tm p) = p := by
  have hs : tm.scale ≠ 0 := ne_of_gt h
  constructor
  · unfold pixel_to_time64 time64_to_pixel
    field_simp
  · unfold pixel_to_time64 time64_to_pixel
    field_simp
    ring

theorem time_map_round_trip_witness :
    (0 : ℚ) < (TimeMap.mk 0 100 5 2).scale ∧
    pixel_to_time64 (TimeMap.mk 0 100 5 2)
      (time64_to_pixel (TimeMap.mk 0 100 5 2) 7) = 7 ∧
    time64_to_pixel (TimeMap.mk 0 100 5 2)
      (pixel_to_time64 (TimeMap.mk 0 100 5 2) 9) = 9 := by
  have h := time_map_round_trip (TimeMap.mk 0 100 5 2) (by norm_num) 7 9
  exact ⟨by norm_num, h.1, h.2⟩

end Waveform
